import Mathlib

/-!
# Verification of the cleaning and outlier-diagnostic steps of `main.py`

The program is a linear pandas script over one incident table.  We embed the
parts the properties talk about:

* a numeric column is a `List (Option ℚ)` (`none` models a missing value, NaN);
* `median` follows `pandas.Series.median` (skip missing, average the two
  middle values of the sorted observed values when their count is even,
  `NaN` i.e. `none` when nothing is observed);
* `quantile` follows `pandas.Series.quantile` with the default linear
  interpolation: at position `h = q * (n - 1)` in the sorted observed values,
  interpolating between the neighbouring entries;
* `fillna v` replaces each missing cell by `v` (filling with NaN leaves NaN);
* the table carries the three target numeric columns of `main.py` plus the
  remaining (non-target) columns as raw cells;
* the outlier loop (lines 70–75) computes, per column, the Tukey-fence flags
  `(x < Q1 - 1.5*IQR) | (x > Q3 + 1.5*IQR)` and sums them; comparisons with a
  missing value are false, as in pandas.
-/

/-- A cell of a numeric column: `none` is a missing value (NaN). -/
abbrev Cell := Option ℚ

/-- A numeric column of the table. -/
abbrev Col := List Cell

/-- The observed (non-missing) values of a column, in row order. -/
def observed (c : Col) : List ℚ := c.filterMap id

/-- The observed values of a column, sorted ascending. -/
def sortObserved (c : Col) : List ℚ := (observed c).insertionSort (· ≤ ·)

/-- Median of an already-sorted list of values, as `pandas.Series.median`
computes it on the observed values: the middle element for odd length, the
mean of the two middle elements for even length, `none` (NaN) for an empty
list. -/
def medianOfSorted (xs : List ℚ) : Option ℚ :=
  if xs.length = 0 then none
  else if xs.length % 2 = 1 then xs[xs.length / 2]?
  else match xs[xs.length / 2 - 1]?, xs[xs.length / 2]? with
    | some a, some b => some ((a + b) / 2)
    | _, _ => none

/-- `df[col].median()`: median of the observed values of a column. -/
def medianCol (c : Col) : Option ℚ := medianOfSorted (sortObserved c)

/-- One cell after `fillna v`: a present value stays, a missing one becomes
`v` (which is itself `none` when the fill value is NaN). -/
def fillnaCell (v : Option ℚ) : Cell → Cell
  | some x => some x
  | none => v

/-- `df[col].fillna(v)` on one column. -/
def fillnaCol (c : Col) (v : Option ℚ) : Col := c.map (fillnaCell v)

/-- Line 63 of `main.py`, restricted to one column: fill the missing cells
with the median of the column's observed values. -/
def imputeCol (c : Col) : Col := fillnaCol c (medianCol c)

/-- The incident table: the three target numeric columns named in
`numeric_cols`, plus every other column of the CSV kept as raw cells. -/
structure Table where
  financialLoss : Col
  affectedUsers : Col
  resolutionTime : Col
  others : List (List (Option String))
deriving DecidableEq

/-- `df[numeric_cols] = df[numeric_cols].fillna(df[numeric_cols].median())`
(line 63): each target column is filled with its own median; no other column
is touched. -/
def impute (t : Table) : Table :=
  { t with
    financialLoss := imputeCol t.financialLoss
    affectedUsers := imputeCol t.affectedUsers
    resolutionTime := imputeCol t.resolutionTime }

/-- Quantile of an already-sorted list, as `pandas.Series.quantile` with the
default `interpolation='linear'`: position `h = q * (n - 1)`, value
`xs[⌊h⌋] + (h - ⌊h⌋) * (xs[⌊h⌋ + 1] - xs[⌊h⌋])`. -/
def quantileOfSorted (xs : List ℚ) (q : ℚ) : Option ℚ :=
  if xs.length = 0 then none
  else
    let h : ℚ := q * ((xs.length : ℚ) - 1)
    let j : Nat := h.floor.toNat
    let g : ℚ := h - (h.floor : ℚ)
    match xs[j]? with
    | none => none
    | some a => some (a + g * (xs.getD (j + 1) a - a))

/-- `df[col].quantile(0.25)` (line 71). -/
def Q1 (c : Col) : Option ℚ := quantileOfSorted (sortObserved c) (1/4)

/-- `df[col].quantile(0.75)` (line 72). -/
def Q3 (c : Col) : Option ℚ := quantileOfSorted (sortObserved c) (3/4)

/-- The boolean series `(df[col] < Q1 - 1.5*IQR) | (df[col] > Q3 + 1.5*IQR)`
of line 74.  A comparison with a missing value (NaN) is false in pandas, and
when the column has no observed value both quantiles are NaN so every flag
is false. -/
def outlierFlags (c : Col) : List Bool :=
  match Q1 c, Q3 c with
  | some q1, some q3 =>
      let iqr := q3 - q1
      c.map (fun cell =>
        match cell with
        | some v => decide (v < q1 - 3/2 * iqr) || decide (v > q3 + 3/2 * iqr)
        | none => false)
  | _, _ => c.map (fun _ => false)

/-- `(...).sum()` of line 74: the printed outlier count of one column. -/
def outlierCount (c : Col) : Nat := (outlierFlags c).count true

/-- The three target columns, in the order of `numeric_cols` (lines 56–60). -/
def numericCols (t : Table) : List Col :=
  [t.financialLoss, t.affectedUsers, t.resolutionTime]

/-- The outlier loop of lines 70–75 as a state-passing step: it prints one
count per target column and performs no assignment to `df`, so the resulting
table is the input table. -/
def outlierStep (t : Table) : List Nat × Table :=
  ((numericCols t).map outlierCount, t)

/-- Number of rows of the table. -/
def numRows (t : Table) : Nat := t.financialLoss.length

/-- The hand-authored conclusions block printed by lines 212–219. -/
def conclusionsText : String :=
  "\n1. Cybersecurity incidents have increased steadily over time, indicating expanding digital attack surfaces.\n2. Financial losses are highly skewed, with a small number of incidents causing extreme damage.\n3. Certain attack types consistently result in higher median financial losses.\n4. Financial loss is positively correlated with both the number of affected users and incident resolution time.\n5. Faster incident detection and response are associated with reduced financial impact.\n6. Extreme incidents (outliers) represent critical systemic risks and should not be excluded from analysis.\n"

/-- The summary step: the `print` of lines 212–219 takes a fixed string
literal; nothing of the table flows into it. -/
def summaryStep (_t : Table) : String := conclusionsText

/-- One of the three target columns, by name. -/
inductive NumericCol
  | loss
  | users
  | time
deriving DecidableEq

/-- Impute a single target column of the table, using the median of that
column's values at the time of the call. -/
def imputeOne (t : Table) (c : NumericCol) : Table :=
  match c with
  | .loss => { t with financialLoss := imputeCol t.financialLoss }
  | .users => { t with affectedUsers := imputeCol t.affectedUsers }
  | .time => { t with resolutionTime := imputeCol t.resolutionTime }

/-- A column with no missing cell. -/
def NoMissing (c : Col) : Prop := ∀ x ∈ c, x.isSome

/-- Every cell of `col` that is missing holds `v` in `col2` at the same row. -/
def MissingFilledWith (col col2 : Col) (v : Option ℚ) : Prop :=
  ∀ i : Nat, col[i]? = some (none : Cell) → col2[i]? = some v

/-- Every present cell of `col` is unchanged in `col2` at the same row. -/
def PresentPreserved (col col2 : Col) : Prop :=
  ∀ (i : Nat) (v : ℚ), col[i]? = some (some v) → col2[i]? = some (some v)

/-- A five-row table whose first target column is the concrete scenario
`[10, missing, 30, missing, 50]` of the spec. -/
def witnessTable : Table where
  financialLoss := [some 10, none, some 30, none, some 50]
  affectedUsers := [some 1, some 2, some 3, some 4, some 5]
  resolutionTime := [none, some 2, some 4, some 6, none]
  others := [[some "a", none, some "b", none, some "c"]]

/-- A table whose first target column has no observed value at all. -/
def witnessTableAllMissing : Table where
  financialLoss := [none, none]
  affectedUsers := [some 1, some 2, some 3]
  resolutionTime := [some 1, none]
  others := []

/-- A two-row column on which both quartiles are easy to evaluate. -/
def fenceWitnessCol : Col := [some 1, some 1]

/-! ## Helper lemmas -/

theorem medianOfSorted_isSome (xs : List ℚ) (h : xs ≠ []) :
    (medianOfSorted xs).isSome := by
  have hn : xs.length ≠ 0 := fun h0 => h (List.length_eq_zero.mp h0)
  have h2 : xs.length / 2 < xs.length :=
    Nat.div_lt_self (Nat.pos_of_ne_zero hn) one_lt_two
  have h1 : xs.length / 2 - 1 < xs.length := lt_of_le_of_lt (Nat.sub_le _ _) h2
  unfold medianOfSorted
  rw [if_neg hn]
  by_cases hodd : xs.length % 2 = 1
  · rw [if_pos hodd, List.getElem?_eq_getElem h2]
    rfl
  · rw [if_neg hodd, List.getElem?_eq_getElem h1, List.getElem?_eq_getElem h2]
    rfl

theorem medianCol_isSome (c : Col) (h : observed c ≠ []) :
    (medianCol c).isSome := by
  apply medianOfSorted_isSome
  intro hnil
  have hlen := congrArg List.length hnil
  simp only [sortObserved, List.length_insertionSort, List.length_nil] at hlen
  exact h (List.length_eq_zero.mp hlen)

theorem imputeCol_no_missing (c : Col) (h : observed c ≠ []) :
    NoMissing (imputeCol c) := by
  unfold NoMissing
  intro x hx
  simp only [imputeCol, fillnaCol, List.mem_map] at hx
  obtain ⟨y, hy, rfl⟩ := hx
  cases y with
  | some v => rfl
  | none => exact medianCol_isSome c h

theorem imputeCol_fills_missing (col : Col) :
    MissingFilledWith col (imputeCol col) (medianCol col) := by
  unfold MissingFilledWith
  intro i hi
  simp only [imputeCol, fillnaCol, List.getElem?_map, hi]
  rfl

theorem imputeCol_preserves_present (col : Col) :
    PresentPreserved col (imputeCol col) := by
  unfold PresentPreserved
  intro i v hi
  simp only [imputeCol, fillnaCol, List.getElem?_map, hi]
  rfl

theorem int_toNat_three : Int.toNat 3 = 3 := rfl

theorem count_true_map {α : Type} (f : α → Bool) (l : List α) :
    (l.map f).count true = l.countP f := by
  induction l with
  | nil => rfl
  | cons a l ih =>
      simp only [List.map_cons, List.count_cons, List.countP_cons, ih]
      cases f a <;> simp

/-! ## Claim theorems -/

/-- C1: for every table whose three target numeric columns each have at
least one observed value, after the imputation step each of those columns
contains zero missing values, and every originally-missing cell holds the
median of that column's originally-observed values, computed before any
imputation. -/
theorem imputation_fills_missing_with_median (t : Table)
    (hL : observed t.financialLoss ≠ [])
    (hU : observed t.affectedUsers ≠ [])
    (hT : observed t.resolutionTime ≠ []) :
    (NoMissing (impute t).financialLoss ∧
     NoMissing (impute t).affectedUsers ∧
     NoMissing (impute t).resolutionTime) ∧
    (MissingFilledWith t.financialLoss (impute t).financialLoss
        (medianCol t.financialLoss) ∧
     MissingFilledWith t.affectedUsers (impute t).affectedUsers
        (medianCol t.affectedUsers) ∧
     MissingFilledWith t.resolutionTime (impute t).resolutionTime
        (medianCol t.resolutionTime)) :=
  ⟨⟨imputeCol_no_missing _ hL, imputeCol_no_missing _ hU,
    imputeCol_no_missing _ hT⟩,
   ⟨imputeCol_fills_missing _, imputeCol_fills_missing _,
    imputeCol_fills_missing _⟩⟩

/-- Witness for C1 at a concrete five-row table. -/
theorem imputation_fills_missing_with_median_witness :
    (observed witnessTable.financialLoss ≠ [] ∧
     observed witnessTable.affectedUsers ≠ [] ∧
     observed witnessTable.resolutionTime ≠ []) ∧
    ((NoMissing (impute witnessTable).financialLoss ∧
      NoMissing (impute witnessTable).affectedUsers ∧
      NoMissing (impute witnessTable).resolutionTime) ∧
     (MissingFilledWith witnessTable.financialLoss
        (impute witnessTable).financialLoss
        (medianCol witnessTable.financialLoss) ∧
      MissingFilledWith witnessTable.affectedUsers
        (impute witnessTable).affectedUsers
        (medianCol witnessTable.affectedUsers) ∧
      MissingFilledWith witnessTable.resolutionTime
        (impute witnessTable).resolutionTime
        (medianCol witnessTable.resolutionTime))) :=
  ⟨⟨by decide, by decide, by decide⟩,
   imputation_fills_missing_with_median witnessTable
     (by decide) (by decide) (by decide)⟩

/-- C2: the imputation step leaves every originally-present cell of the
three target numeric columns unchanged, and has no effect on any cell of
any column outside the three target numeric columns. -/
theorem imputation_preserves_present_and_others (t : Table) :
    PresentPreserved t.financialLoss (impute t).financialLoss ∧
    PresentPreserved t.affectedUsers (impute t).affectedUsers ∧
    PresentPreserved t.resolutionTime (impute t).resolutionTime ∧
    (impute t).others = t.others :=
  ⟨imputeCol_preserves_present _, imputeCol_preserves_present _,
   imputeCol_preserves_present _, rfl⟩

/-- Witness for C2 at a concrete five-row table. -/
theorem imputation_preserves_present_and_others_witness :
    PresentPreserved witnessTable.financialLoss
      (impute witnessTable).financialLoss ∧
    (impute witnessTable).others = witnessTable.others :=
  ⟨(imputation_preserves_present_and_others witnessTable).1,
   (imputation_preserves_present_and_others witnessTable).2.2.2⟩

/-- C3: the outlier-counting step is a pure read: it leaves the table
unchanged, and running it twice in sequence yields identical counts and
again the unchanged table. -/
theorem outlier_step_is_pure_read (t : Table) :
    (outlierStep t).2 = t ∧
    (outlierStep (outlierStep t).2).1 = (outlierStep t).1 ∧
    (outlierStep (outlierStep t).2).2 = t :=
  ⟨rfl, rfl, rfl⟩

/-- C4: the printed outlier count of a column equals the number of rows
whose value is strictly below `Q1 - 1.5*IQR` or strictly above
`Q3 + 1.5*IQR`, where `IQR = Q3 - Q1`. -/
theorem outlier_count_matches_tukey_fences (col : Col) (q1 q3 : ℚ)
    (h1 : Q1 col = some q1) (h3 : Q3 col = some q3) :
    outlierCount col = col.countP (fun cell =>
      match cell with
      | some v => decide (v < q1 - 3/2 * (q3 - q1) ∨
                          q3 + 3/2 * (q3 - q1) < v)
      | none => false) := by
  unfold outlierCount outlierFlags
  simp only [h1, h3]
  rw [count_true_map]
  apply List.countP_congr
  intro cell _
  cases cell with
  | none => simp
  | some v => simp [Bool.decide_or]

/-- Witness for C4 at a concrete two-row column. -/
theorem outlier_count_matches_tukey_fences_witness :
    (Q1 fenceWitnessCol = some 1 ∧ Q3 fenceWitnessCol = some 1) ∧
    outlierCount fenceWitnessCol = fenceWitnessCol.countP (fun cell =>
      match cell with
      | some v => decide (v < 1 - 3/2 * ((1 : ℚ) - 1) ∨
                          1 + 3/2 * ((1 : ℚ) - 1) < v)
      | none => false) := by
  have h1 : Q1 fenceWitnessCol = some 1 := by
    norm_num [fenceWitnessCol, Q1, quantileOfSorted, sortObserved, observed,
      List.insertionSort, List.orderedInsert, Rat.floor]
  have h3 : Q3 fenceWitnessCol = some 1 := by
    norm_num [fenceWitnessCol, Q3, quantileOfSorted, sortObserved, observed,
      List.insertionSort, List.orderedInsert, Rat.floor]
  exact ⟨⟨h1, h3⟩, outlier_count_matches_tukey_fences fenceWitnessCol 1 1 h1 h3⟩

/-- The column `[1, 2, 3, 4, 5, 100]` of the quartile boundary check. -/
def exampleOutlierCol : Col :=
  [some 1, some 2, some 3, some 4, some 5, some 100]

/-- C5: on the column `[1,2,3,4,5,100]`, the quartile computation of the
outlier step yields `Q1 = 2.25` and `Q3 = 4.75`, hence `IQR = 2.5`; the
value `100` exceeds the upper fence `4.75 + 3.75 = 8.5`, and exactly the
row holding `100` is flagged as an outlier. -/
theorem quartile_example_classification :
    Q1 exampleOutlierCol = some (9/4) ∧
    Q3 exampleOutlierCol = some (19/4) ∧
    (19/4 : ℚ) - 9/4 = 5/2 ∧
    (19/4 : ℚ) + 3/2 * (5/2) = 17/2 ∧
    ((100 : ℚ) > 17/2) ∧
    outlierFlags exampleOutlierCol = [false, false, false, false, false, true] ∧
    outlierCount exampleOutlierCol = 1 := by
  have h1 : Q1 exampleOutlierCol = some (9/4) := by
    norm_num [exampleOutlierCol, Q1, quantileOfSorted, sortObserved,
      observed, List.insertionSort, List.orderedInsert, Rat.floor,
      int_toNat_three]
  have h3 : Q3 exampleOutlierCol = some (19/4) := by
    norm_num [exampleOutlierCol, Q3, quantileOfSorted, sortObserved,
      observed, List.insertionSort, List.orderedInsert, Rat.floor,
      int_toNat_three]
  have hflags : outlierFlags exampleOutlierCol
      = [false, false, false, false, false, true] := by
    rw [outlierFlags, h1, h3]
    norm_num [exampleOutlierCol]
  have hcount : outlierCount exampleOutlierCol = 1 := by
    rw [outlierCount, hflags]
    rfl
  exact ⟨h1, h3, by norm_num, by norm_num, by norm_num, hflags, hcount⟩

/-- C6: on a five-row table whose target column holds
`[10, missing, 30, missing, 50]`, the imputation step replaces both missing
entries with `30`, the median of the observed values `[10, 30, 50]`. -/
theorem impute_concrete_scenario :
    medianCol witnessTable.financialLoss = some 30 ∧
    (impute witnessTable).financialLoss
      = [some 10, some 30, some 30, some 30, some 50] := by decide

/-- C7: the cleaning (imputation) step is a total function that preserves
the number of rows of every loaded table with at least one row, on every
column. -/
theorem load_clean_preserves_row_count (t : Table) (h : 0 < numRows t) :
    numRows (impute t) = numRows t ∧
    0 < numRows (impute t) ∧
    (impute t).affectedUsers.length = t.affectedUsers.length ∧
    (impute t).resolutionTime.length = t.resolutionTime.length ∧
    (impute t).others = t.others := by
  have hlen : numRows (impute t) = numRows t := by
    simp [numRows, impute, imputeCol, fillnaCol]
  refine ⟨hlen, hlen ▸ h, ?_, ?_, rfl⟩ <;>
    simp [impute, imputeCol, fillnaCol]

/-- Witness for C7 at a concrete five-row table. -/
theorem load_clean_preserves_row_count_witness :
    0 < numRows witnessTable ∧
    (numRows (impute witnessTable) = numRows witnessTable ∧
     0 < numRows (impute witnessTable) ∧
     (impute witnessTable).affectedUsers.length
       = witnessTable.affectedUsers.length ∧
     (impute witnessTable).resolutionTime.length
       = witnessTable.resolutionTime.length ∧
     (impute witnessTable).others = witnessTable.others) :=
  ⟨by decide, load_clean_preserves_row_count witnessTable (by decide)⟩

/-- C8: imputing the three target numeric columns one at a time, in any
order, yields the same table as the simultaneous imputation of line 63,
because each column's fill value is the median of that column's own
observed values. -/
theorem impute_order_independent (t : Table) (l : List NumericCol)
    (h : l.Perm [NumericCol.loss, NumericCol.users, NumericCol.time]) :
    l.foldl imputeOne t = impute t := by
  haveI : RightCommutative imputeOne :=
    ⟨fun s c₁ c₂ => by cases c₁ <;> cases c₂ <;> rfl⟩
  rw [h.foldl_eq]
  rfl

/-- Witness for C8: one non-canonical order on a concrete table. -/
theorem impute_order_independent_witness :
    ([NumericCol.users, NumericCol.time, NumericCol.loss].Perm
      [NumericCol.loss, NumericCol.users, NumericCol.time]) ∧
    ([NumericCol.users, NumericCol.time, NumericCol.loss].foldl
        imputeOne witnessTable = impute witnessTable) :=
  ⟨by decide,
   impute_order_independent witnessTable
     [NumericCol.users, NumericCol.time, NumericCol.loss] (by decide)⟩

/-- C9: the final conclusions block is a constant string: for any two input
tables the printed text is identical. -/
theorem conclusions_block_constant (t₁ t₂ : Table) :
    summaryStep t₁ = summaryStep t₂ := rfl

/-- C10: if a target numeric column has no observed value at all, the
imputation step leaves every cell of that column still missing, so the
no-missing-values invariant fails for it; the precondition of at least one
observed value per column is necessary. -/
theorem all_missing_column_stays_missing (t : Table)
    (h : ∀ x ∈ t.financialLoss, x = (none : Cell)) :
    (impute t).financialLoss = t.financialLoss ∧
    (∀ x ∈ (impute t).financialLoss, x = (none : Cell)) ∧
    (t.financialLoss ≠ [] → ¬ NoMissing (impute t).financialLoss) := by
  have hobs : observed t.financialLoss = [] := by
    rw [observed, List.filterMap_eq_nil_iff]
    exact h
  have hmed : medianCol t.financialLoss = none := by
    have : sortObserved t.financialLoss = [] := by
      rw [sortObserved, hobs]
      rfl
    rw [medianCol, this]
    rfl
  have hid : fillnaCell (none : Option ℚ) = id :=
    funext fun x => by cases x <;> rfl
  have heq : (impute t).financialLoss = t.financialLoss := by
    show imputeCol t.financialLoss = t.financialLoss
    rw [imputeCol, fillnaCol, hmed, hid, List.map_id]
  refine ⟨heq, by rw [heq]; exact h, ?_⟩
  intro hne hnm
  rw [heq] at hnm
  obtain ⟨x, hx⟩ := List.exists_mem_of_ne_nil _ hne
  have := hnm x hx
  rw [h x hx] at this
  exact Bool.noConfusion this

/-- Witness for C10 at a concrete table whose first target column is all
missing. -/
theorem all_missing_column_stays_missing_witness :
    (∀ x ∈ witnessTableAllMissing.financialLoss, x = (none : Cell)) ∧
    ((impute witnessTableAllMissing).financialLoss
        = witnessTableAllMissing.financialLoss ∧
     (∀ x ∈ (impute witnessTableAllMissing).financialLoss,
        x = (none : Cell)) ∧
     (witnessTableAllMissing.financialLoss ≠ [] →
        ¬ NoMissing (impute witnessTableAllMissing).financialLoss)) :=
  ⟨by decide, all_missing_column_stays_missing witnessTableAllMissing (by decide)⟩
